import Mathlib

/-!
Verification of the CP-Forum service launch orchestrator.

Shallow embedding of the shell entrypoints and the restart logic:
  * `restart_wrapper`        from the supervised-loop entrypoint (unnamed/part_000)
  * `build_forum`            from docker/production-entrypoint.sh, section 5
  * `check_database_connectivity` from docker/production-entrypoint.sh, section 2
  * `fix_jquery_assets`      from docker/production-entrypoint.sh, section 6
  * `pre_start_validation`   from docker/production-entrypoint.sh, section 7
  * `validate_environment` / `check_directory` from section 1
  * `create_configuration`   from section 4
  * `handleRestartEvent`     from src/meta/index.js (restart / fallbackRestart)
-/

namespace CPForum

/-! ### Process supervisor (unnamed/part_000, `restart_wrapper`) -/

/-- Observable trace of one run of the supervised loop: how many times the
managed process was launched, how many 2-second waits happened, how many
`node ./nodebb build` rebuilds were attempted and how many of those
failed, and the script's own final exit code (`none` while the loop is
still running the last launched process). The rebuild counters stay 0 in
every reachable behavior — see `restart_wrapper` — and are carried so the
rebuild-and-restart contract can be stated about the trace. -/
structure SupTrace where
  launches : Nat
  sleeps2s : Nat
  rebuildAttempts : Nat
  rebuildFailures : Nat
  finalExit : Option Nat
deriving DecidableEq, Repr

/-- The supervised restart loop of unnamed/part_000: each element of
`exits` is the exit code of one completed run of `node app.js`. The script
begins with `set -e`, so a nonzero exit of the plain command `node app.js`
terminates the whole script immediately with that code — `EXIT_CODE=$?`
is never reached for it, and the `case` statement's exit-200 rebuild
branch and its `exit $EXIT_CODE` branch are unreachable. Only exit code 0
reaches the `case`, whose 0-branch sleeps 2 seconds and relaunches; hence
no rebuild is ever attempted. -/
def restart_wrapper (exits : List Nat) : SupTrace :=
  match exits with
  | [] => { launches := 0, sleeps2s := 0, rebuildAttempts := 0,
            rebuildFailures := 0, finalExit := none }
  | c :: rest =>
    if c = 0 then
      let t := restart_wrapper rest
      { launches := t.launches + 1, sleeps2s := t.sleeps2s + 1,
        rebuildAttempts := t.rebuildAttempts,
        rebuildFailures := t.rebuildFailures, finalExit := t.finalExit }
    else
      { launches := 1, sleeps2s := 0, rebuildAttempts := 0,
        rebuildFailures := 0, finalExit := some c }

/-! ### Build cache (docker/production-entrypoint.sh, `build_forum`) -/

/-- Which build routine section 5 of the production entrypoint invokes. -/
inductive BuildDecision
  | upgrade
  | build
  | skip
deriving DecidableEq, Repr

/-- Fatal outcomes of section 5 (`exit 1` paths of `build_forum`). -/
inductive BuildError
  | upgradeFailed
  | buildFailed
  | nodebbMissing
deriving DecidableEq, Repr

/-- `build_forum` of the production entrypoint. `packageHash` is the md5 of
the manifest (empty string when no manifest file exists), `storedHash` the
content of `$CONFIG_DIR/install_hash.md5` (empty when the file is absent),
`startBuild` the `START_BUILD` force flag, `nodebbExec` whether `./nodebb`
is executable, and `upgradeOk` / `buildOk` whether the invoked routine
succeeds within its 600s timeout. Returns the decision taken together with
the stored hash after the launch. -/
def build_forum (packageHash storedHash : String)
    (startBuild nodebbExec upgradeOk buildOk : Bool) :
    Except BuildError (BuildDecision × String) :=
  if packageHash ≠ "" ∧ packageHash ≠ storedHash then
    if nodebbExec then
      if upgradeOk then .ok (.upgrade, packageHash) else .error .upgradeFailed
    else
      if buildOk then .ok (.build, packageHash) else .error .buildFailed
  else if startBuild then
    if nodebbExec then
      if buildOk then .ok (.build, storedHash) else .error .buildFailed
    else .error .nodebbMissing
  else .ok (.skip, storedHash)

end CPForum

namespace CPForum

/-- C1: evaluating the supervised loop at the claimed exit sequence
0, 200, 17 shows the claim false of the code: because `set -e` terminates
the script on the first nonzero `node app.js` exit, the supervisor
restarts once (after the 0) and then dies with status 200 — no rebuild is
attempted, the 17 is never reached, and the trace differs from the
claimed two-restarts-one-rebuild-exit-17 trace; an isolated exit 200
likewise terminates immediately without rebuilding or relaunching. -/
theorem c1_supervisor_errexit_behavior :
    restart_wrapper [0, 200, 17] =
      { launches := 2, sleeps2s := 1, rebuildAttempts := 0,
        rebuildFailures := 0, finalExit := some 200 } ∧
    restart_wrapper [200] =
      { launches := 1, sleeps2s := 0, rebuildAttempts := 0,
        rebuildFailures := 0, finalExit := some 200 } ∧
    restart_wrapper [0, 200, 17] ≠
      { launches := 3, sleeps2s := 2, rebuildAttempts := 1,
        rebuildFailures := 0, finalExit := some 17 } := by
  decide

/-- C4: a differing (or absent) stored fingerprint yields `Upgrade` with the
new fingerprint persisted, falling back to `Build` when `./nodebb` is not
executable; a matching fingerprint with the force-build flag yields `Build`
without touching the stored fingerprint; otherwise `Skip`, invoking no build
routine (the result does not depend on any routine outcome); hence with the
force flag off: a launch on a changed manifest upgrades exactly once and the
next launch with the unchanged manifest skips. -/
theorem c4_build_cache_decision :
    (∀ h s sb bOk, h ≠ "" → h ≠ s →
      build_forum h s sb true true bOk = .ok (.upgrade, h)) ∧
    (∀ h s sb uOk, h ≠ "" → h ≠ s →
      build_forum h s sb false uOk true = .ok (.build, h)) ∧
    (∀ h uOk, build_forum h h true true uOk true = .ok (.build, h)) ∧
    (∀ h ex uOk bOk, build_forum h h false ex uOk bOk = .ok (.skip, h)) ∧
    (∀ h s, h ≠ "" → h ≠ s →
      build_forum h s false true true true = .ok (.upgrade, h) ∧
      build_forum h h false true true true = .ok (.skip, h)) := by
  refine ⟨?_, ?_, ?_, ?_, ?_⟩
  · intro h s sb bOk h1 h2
    simp [build_forum, h1, h2]
  · intro h s sb uOk h1 h2
    simp [build_forum, h1, h2]
  · intro h uOk
    simp [build_forum]
  · intro h ex uOk bOk
    simp [build_forum]
  · intro h s h1 h2
    constructor
    · simp [build_forum, h1, h2]
    · simp [build_forum]

/-- C4 witness: changed manifest upgrades and persists, unchanged manifest
with the force flag off skips. -/
theorem c4_build_cache_decision_witness :
    build_forum ("aabb") ("") false true true true = .ok (.upgrade, "aabb") ∧
    build_forum ("aabb") ("aabb") false true true true = .ok (.skip, "aabb") :=
  c4_build_cache_decision.2.2.2.2 ("aabb") ("") (by decide) (by decide)

end CPForum

namespace CPForum

/-! ### Preflight gate (docker/production-entrypoint.sh, `pre_start_validation`) -/

/-- Filesystem and runtime facts inspected by section 7 of the production
entrypoint. For each critical directory the script first creates it when
missing (a freshly created directory is writable by its creator), then
tests writability. The admin-bundle jQuery inspection only prints warnings
and never counts as a failure, so its two facts are carried but unused by
the failure count. -/
structure PreflightState where
  configJson : Bool
  nodebbExec : Bool
  nodeModules : Bool
  uploadsPresent : Bool
  uploadsWritable : Bool
  logsPresent : Bool
  logsWritable : Bool
  buildPresent : Bool
  buildWritable : Bool
  adminJsPresent : Bool
  adminJsHasJquery : Bool
  nodeRuntimeOk : Bool
deriving DecidableEq, Repr

/-- Writability of a critical directory after the `mkdir -p` of a missing
one: a directory the script just created is writable. -/
def dirWritableAfterCreate (present writable : Bool) : Bool :=
  if present then writable else true

/-- The failure messages accumulated by `pre_start_validation`, in script
order; every check runs, none short-circuits. -/
def pre_start_failures (st : PreflightState) : List String :=
  (if st.configJson then []
    else ["Configuration file missing: /usr/src/app/config.json"]) ++
  (if st.nodebbExec then []
    else ["NodeBB executable missing or not executable"]) ++
  (if st.nodeModules then [] else ["Node modules missing"]) ++
  (if dirWritableAfterCreate st.uploadsPresent st.uploadsWritable then []
    else ["Directory not writable: public/uploads"]) ++
  (if dirWritableAfterCreate st.logsPresent st.logsWritable then []
    else ["Directory not writable: logs"]) ++
  (if dirWritableAfterCreate st.buildPresent st.buildWritable then []
    else ["Directory not writable: build"]) ++
  (if st.nodeRuntimeOk then [] else ["Node.js runtime error"])

/-- `pre_start_validation`: passes when no failure was accumulated, else
exits with the count and the list of failures. -/
def pre_start_validation (st : PreflightState) :
    Except (Nat × List String) Unit :=
  let errs := pre_start_failures st
  if errs.length = 0 then .ok () else .error (errs.length, errs)

/-- A state where every preflight precondition holds. -/
def preflightAllGood : PreflightState :=
  { configJson := true, nodebbExec := true, nodeModules := true,
    uploadsPresent := true, uploadsWritable := true,
    logsPresent := true, logsWritable := true,
    buildPresent := true, buildWritable := true,
    adminJsPresent := true, adminJsHasJquery := true,
    nodeRuntimeOk := true }

end CPForum

namespace CPForum

/-- C5: the preflight gate accumulates every failure with no short-circuit
(the failure count is the sum of the independent per-check indicators); two
independent missing preconditions are both named and counted as 2; zero
missing preconditions pass; any positive count aborts, reporting the count
and all names. -/
theorem c5_preflight_accumulates :
    (∀ st : PreflightState, (pre_start_failures st).length =
      (if st.configJson then 0 else 1) +
      ((if st.nodebbExec then 0 else 1) +
      ((if st.nodeModules then 0 else 1) +
      ((if dirWritableAfterCreate st.uploadsPresent st.uploadsWritable
          then 0 else 1) +
      ((if dirWritableAfterCreate st.logsPresent st.logsWritable
          then 0 else 1) +
      ((if dirWritableAfterCreate st.buildPresent st.buildWritable
          then 0 else 1) +
      (if st.nodeRuntimeOk then 0 else 1))))))) ∧
    (pre_start_failures { preflightAllGood with
        configJson := false, nodebbExec := false } =
      ["Configuration file missing: /usr/src/app/config.json",
       "NodeBB executable missing or not executable"] ∧
     (pre_start_failures { preflightAllGood with
        configJson := false, nodebbExec := false }).length = 2) ∧
    pre_start_validation preflightAllGood = .ok () ∧
    (∀ st : PreflightState, (pre_start_failures st).length > 0 →
      pre_start_validation st =
        .error ((pre_start_failures st).length, pre_start_failures st)) := by
  refine ⟨?_, ⟨by decide, by decide⟩, by rfl, ?_⟩
  · intro st
    simp only [pre_start_failures, List.length_append, apply_ite List.length,
      List.length_nil, List.length_singleton]
    ring
  · intro st hpos
    have hne : (pre_start_failures st).length ≠ 0 := Nat.pos_iff_ne_zero.mp hpos
    simp [pre_start_validation, hne]

/-- C5 witness: a state whose only failure is the missing runtime aborts
with count 1 naming it. -/
theorem c5_preflight_accumulates_witness :
    pre_start_validation { preflightAllGood with nodeRuntimeOk := false } =
      .error (1, ["Node.js runtime error"]) := by
  have h := c5_preflight_accumulates.2.2.2
    { preflightAllGood with nodeRuntimeOk := false } (by decide)
  simpa using h

end CPForum

namespace CPForum

/-! ### Readiness probe (docker/production-entrypoint.sh, section 2) -/

/-- Outcome of `check_database_connectivity`: whether the loop returned 0,
how many `nc -z` reachability attempts it performed, and the total seconds
slept (the script sleeps the interval after every failed attempt). -/
structure ProbeResult where
  success : Bool
  attemptsMade : Nat
  sleepSeconds : Nat
deriving DecidableEq, Repr

/-- The polling loop body: `attempt` is the current attempt number and
`fuel` the number of attempts still allowed (`max_attempts - attempt + 1`).
`reachable n` abstracts the result of `nc -z host port` on attempt `n` for
the fixed host and port of the call. -/
def probeFrom (reachable : Nat → Bool) (interval attempt fuel : Nat) :
    ProbeResult :=
  match fuel with
  | 0 => { success := false, attemptsMade := 0, sleepSeconds := 0 }
  | fuel' + 1 =>
    if reachable attempt then
      { success := true, attemptsMade := 1, sleepSeconds := 0 }
    else
      let r := probeFrom reachable interval (attempt + 1) fuel'
      { success := r.success, attemptsMade := r.attemptsMade + 1,
        sleepSeconds := r.sleepSeconds + interval }

/-- `check_database_connectivity` with explicit bounds; the script exits 1
(dependency unreachable) exactly when the result has `success = false`. -/
def check_database_connectivity (reachable : Nat → Bool)
    (maxAttempts interval : Nat) : ProbeResult :=
  probeFrom reachable interval 1 maxAttempts

/-- The hard-coded policy of the script: 60 attempts, 3 seconds apart. -/
def check_database_connectivity_default (reachable : Nat → Bool) :
    ProbeResult :=
  check_database_connectivity reachable 60 3

theorem probeFrom_always_unreachable (reachable : Nat → Bool)
    (h : ∀ n, reachable n = false) (interval : Nat) :
    ∀ fuel attempt, probeFrom reachable interval attempt fuel =
      { success := false, attemptsMade := fuel,
        sleepSeconds := fuel * interval } := by
  intro fuel
  induction fuel with
  | zero => intro attempt; simp [probeFrom]
  | succ n ih =>
    intro attempt
    simp [probeFrom, h, ih (attempt + 1), Nat.succ_mul, Nat.add_comm]

theorem probeFrom_first_reachable (reachable : Nat → Bool) (interval k : Nat)
    (hk : reachable k = true) :
    ∀ fuel attempt, attempt ≤ k → k < attempt + fuel →
      (∀ j, attempt ≤ j → j < k → reachable j = false) →
      probeFrom reachable interval attempt fuel =
        { success := true, attemptsMade := k + 1 - attempt,
          sleepSeconds := (k - attempt) * interval } := by
  intro fuel
  induction fuel with
  | zero => intro attempt h1 h2 _; omega
  | succ n ih =>
    intro attempt h1 h2 hbefore
    by_cases heq : attempt = k
    · subst heq
      simp [probeFrom, hk]
    · have hlt : attempt < k := lt_of_le_of_ne h1 heq
      have hfail : reachable attempt = false := hbefore attempt le_rfl hlt
      have hrec := ih (attempt + 1) hlt (by omega)
        (fun j hj1 hj2 => hbefore j (by omega) hj2)
      simp only [probeFrom, hfail]
      rw [hrec]
      have e1 : k + 1 - (attempt + 1) + 1 = k + 1 - attempt := by omega
      have e2 : (k - (attempt + 1)) * interval + interval =
          (k - attempt) * interval := by
        have : k - attempt = (k - (attempt + 1)) + 1 := by omega
        rw [this, Nat.succ_mul]
      simp [e1, e2]
      omega

end CPForum

namespace CPForum

/-- C6: against an always-unreachable target the probe performs exactly
`maxAttempts` reachability attempts, sleeping `interval` seconds after each
failed one, and then fails (exit: dependency unreachable); against a target
first reachable on attempt `k ≤ maxAttempts` it succeeds having performed
exactly `k` attempts, with no further attempts. -/
theorem c6_readiness_probe_attempts (reachable : Nat → Bool)
    (maxAttempts interval : Nat) :
    ((∀ n, reachable n = false) →
      check_database_connectivity reachable maxAttempts interval =
        { success := false, attemptsMade := maxAttempts,
          sleepSeconds := maxAttempts * interval }) ∧
    (∀ k, 1 ≤ k → k ≤ maxAttempts → reachable k = true →
      (∀ j, 1 ≤ j → j < k → reachable j = false) →
      check_database_connectivity reachable maxAttempts interval =
        { success := true, attemptsMade := k,
          sleepSeconds := (k - 1) * interval }) := by
  constructor
  · intro h
    exact probeFrom_always_unreachable reachable h interval maxAttempts 1
  · intro k h1 h2 hk hbefore
    have := probeFrom_first_reachable reachable interval k hk maxAttempts 1
      h1 (by omega) (fun j hj1 hj2 => hbefore j hj1 hj2)
    simpa [check_database_connectivity, Nat.add_sub_cancel] using this

/-- C6 witness: with 5 allowed attempts, an always-unreachable target is
probed exactly 5 times (15 seconds slept), and a target first reachable on
attempt 3 takes exactly 3 attempts. -/
theorem c6_readiness_probe_attempts_witness :
    check_database_connectivity (fun _ => false) 5 3 =
      { success := false, attemptsMade := 5, sleepSeconds := 15 } ∧
    check_database_connectivity (fun n => decide (3 ≤ n)) 5 3 =
      { success := true, attemptsMade := 3, sleepSeconds := 6 } := by
  constructor
  · exact (c6_readiness_probe_attempts (fun _ => false) 5 3).1
      (fun n => rfl)
  · exact (c6_readiness_probe_attempts (fun n => decide (3 ≤ n)) 5 3).2
      3 (by decide) (by decide) (by decide)
      (fun j hj1 hj2 => by
        simp only [decide_eq_false_iff_not]
        omega)

end CPForum

namespace CPForum

/-! ### Environment resolver (docker/production-entrypoint.sh, section 1) -/

/-- Raw environment: `none` models an unset variable. -/
abbrev Env := String → Option String

/-- The four mandatory settings of `validate_environment`, in the order the
script tests them. -/
def required_vars : List String :=
  ["NODEBB_DB_HOST", "NODEBB_DB_USER", "NODEBB_DB_PASSWORD", "NODEBB_DB_NAME"]

/-- The test `[ -z "${!var:-}" ]`: true when the variable is unset or set to
the empty string. -/
def envAbsent (env : Env) (v : String) : Bool :=
  ((env v).getD ("")) == ""

/-- `validate_environment`: returns the first required variable whose value
is absent (the script prints the error naming it and exits 1), or `none`
when all four are configured. -/
def validate_environment (env : Env) : Option String :=
  required_vars.find? (envAbsent env)

/-- A directory as seen by `check_directory`: whether it exists, whether it
is writable, and whether the one-shot `chown`/`chmod` repair would make it
writable. -/
structure DirState where
  present : Bool
  writable : Bool
  fixable : Bool
deriving DecidableEq, Repr

/-- Filesystem and later side effects of the entrypoint, in order. -/
inductive FsOp
  | mkdirOp (d : String)
  | chownOp (d : String)
  | chmodOp (d : String)
  | netProbeOp
deriving DecidableEq, Repr

/-- Abort reasons of section 1. -/
inductive EntrypointError
  | missingRequiredSetting (v : String)
  | directoryNotWritable (d : String)
deriving DecidableEq, Repr

/-- `check_directory`: create the directory when missing (a directory just
created by the script is writable by it); when present but not writable,
attempt the ownership/permission repair once and fail if it is still not
writable. Returns the filesystem operations performed and the error, if
any. -/
def check_directory (name : String) (d : DirState) :
    List FsOp × Option EntrypointError :=
  if !d.present then ([.mkdirOp name], none)
  else if d.writable then ([], none)
  else ([.chownOp name, .chmodOp name],
        if d.fixable then none else some (.directoryNotWritable name))

/-- The entrypoint from `set_defaults` up to the database readiness probe:
`set_defaults` only exports defaults (no side effects), then
`validate_environment` runs, then the three `check_directory` calls, then
section 2 opens the first network connection (`netProbeOp`). The returned
list is every side-effecting operation performed before the script stops
or reaches the probe. -/
def entrypoint_resolve (env : Env)
    (configDir uploadsDir logsDir : DirState) :
    List FsOp × Option EntrypointError :=
  match validate_environment env with
  | some v => ([], some (.missingRequiredSetting v))
  | none =>
    let r1 := check_directory ("config") configDir
    match r1.2 with
    | some e => (r1.1, some e)
    | none =>
      let r2 := check_directory ("uploads") uploadsDir
      match r2.2 with
      | some e => (r1.1 ++ r2.1, some e)
      | none =>
        let r3 := check_directory ("logs") logsDir
        match r3.2 with
        | some e => (r1.1 ++ r2.1 ++ r3.1, some e)
        | none => (r1.1 ++ r2.1 ++ r3.1 ++ [.netProbeOp], none)

/-- `find?` only looks at the members of the list, so pointwise equal
predicates find the same first witness. -/
theorem find?_congr_mem {α : Type} (l : List α) (p q : α → Bool)
    (h : ∀ x ∈ l, p x = q x) : l.find? p = l.find? q := by
  induction l with
  | nil => rfl
  | cons a t ih =>
    have ha := h a (List.mem_cons_self a t)
    have ht := fun x hx => h x (List.mem_cons_of_mem a hx)
    by_cases hp : p a = true
    · rw [List.find?_cons_of_pos _ hp, List.find?_cons_of_pos _ (ha ▸ hp)]
    · have hq : ¬ q a = true := fun hc => hp (ha ▸ hc)
      rw [List.find?_cons_of_neg _ hp, List.find?_cons_of_neg _ hq, ih ht]

end CPForum

namespace CPForum

/-- Shared backbone for the resolver claims: an absent required setting
makes the resolver stop, naming the first absent one, with no operation
performed. -/
theorem resolver_stops_at_first_absent (env : Env)
    (configDir uploadsDir logsDir : DirState)
    (h : ∃ v ∈ required_vars, envAbsent env v = true) :
    ∃ v, validate_environment env = some v ∧
      entrypoint_resolve env configDir uploadsDir logsDir =
        ([], some (.missingRequiredSetting v)) ∧
      envAbsent env v = true ∧
      (∃ pre post, required_vars = pre ++ v :: post ∧
        ∀ u ∈ pre, envAbsent env u = false) := by
  obtain ⟨w, hw, hwabs⟩ := h
  have hsome : (validate_environment env).isSome := by
    unfold validate_environment
    rw [List.find?_isSome]
    exact ⟨w, hw, hwabs⟩
  obtain ⟨v, hv⟩ := Option.isSome_iff_exists.mp hsome
  have hv' : required_vars.find? (envAbsent env) = some v := hv
  obtain ⟨habs, pre, post, hsplit, hpre⟩ := List.find?_eq_some.mp hv'
  refine ⟨v, hv, ?_, habs, pre, post, hsplit, ?_⟩
  · unfold entrypoint_resolve
    rw [hv]
  · intro u hu
    have := hpre u hu
    simpa using this

/-- C7: whenever one of the four required database settings is absent, the
resolver stops with an error naming the first absent one — a variable that
is absent and preceded in the required list only by configured variables —
and no filesystem, network, or process operation has been performed. -/
theorem c7_resolver_missing_setting (env : Env)
    (configDir uploadsDir logsDir : DirState)
    (h : ∃ v ∈ required_vars, envAbsent env v = true) :
    ∃ v, validate_environment env = some v ∧
      entrypoint_resolve env configDir uploadsDir logsDir =
        ([], some (.missingRequiredSetting v)) ∧
      envAbsent env v = true ∧
      (∃ pre post, required_vars = pre ++ v :: post ∧
        ∀ u ∈ pre, envAbsent env u = false) :=
  resolver_stops_at_first_absent env configDir uploadsDir logsDir h

/-- C7 witness: with only the host configured, the resolver aborts naming
`NODEBB_DB_USER` and performs no operation. -/
theorem c7_resolver_missing_setting_witness :
    ∃ v, validate_environment
        (fun u => if u == ("NODEBB_DB_HOST") then some ("db") else none) =
          some v ∧
      entrypoint_resolve
        (fun u => if u == ("NODEBB_DB_HOST") then some ("db") else none)
        ⟨true, true, true⟩ ⟨true, true, true⟩ ⟨true, true, true⟩ =
        ([], some (.missingRequiredSetting v)) ∧
      envAbsent
        (fun u => if u == ("NODEBB_DB_HOST") then some ("db") else none) v =
          true ∧
      (∃ pre post, required_vars = pre ++ v :: post ∧
        ∀ u ∈ pre,
          envAbsent
            (fun u => if u == ("NODEBB_DB_HOST") then some ("db") else none)
            u = false) :=
  c7_resolver_missing_setting
    (fun u => if u == ("NODEBB_DB_HOST") then some ("db") else none)
    ⟨true, true, true⟩ ⟨true, true, true⟩ ⟨true, true, true⟩
    ⟨"NODEBB_DB_USER", by decide, by decide⟩

end CPForum

namespace CPForum

/-- C10: a required database setting set to the empty string is treated by
`[ -z "${!var:-}" ]` exactly like an unset one: it tests absent, the
resolver behaves identically to the environment with the variable removed,
the launch aborts naming the first absent required variable before any
directory operation, and when the empty variable is the first absent one
the abort names that very variable. -/
theorem c10_empty_treated_as_absent (env : Env) (v : String)
    (configDir uploadsDir logsDir : DirState)
    (hv : v ∈ required_vars) (hempty : env v = some ("")) :
    envAbsent env v = true ∧
    validate_environment env =
      validate_environment (fun u => if u = v then none else env u) ∧
    (∃ w, validate_environment env = some w ∧
      entrypoint_resolve env configDir uploadsDir logsDir =
        ([], some (.missingRequiredSetting w)) ∧
      envAbsent env w = true ∧
      (∃ pre post, required_vars = pre ++ w :: post ∧
        ∀ u ∈ pre, envAbsent env u = false)) ∧
    ((∃ pre post, required_vars = pre ++ v :: post ∧
        ∀ u ∈ pre, envAbsent env u = false) →
      validate_environment env = some v) := by
  have habs : envAbsent env v = true := by
    simp [envAbsent, hempty]
  refine ⟨habs, ?_, ?_, ?_⟩
  · unfold validate_environment
    apply find?_congr_mem
    intro x _
    by_cases hx : x = v
    · subst hx
      simp [envAbsent, hempty]
    · simp [envAbsent, hx]
  · exact resolver_stops_at_first_absent env configDir uploadsDir logsDir
      ⟨v, hv, habs⟩
  · rintro ⟨pre, post, hsplit, hpre⟩
    unfold validate_environment
    rw [List.find?_eq_some]
    exact ⟨habs, pre, post, hsplit, fun u hu => by simp [hpre u hu]⟩

/-- C10 witness: `NODEBB_DB_PASSWORD=""` with the other settings configured
aborts naming `NODEBB_DB_PASSWORD` with no directory operation. -/
theorem c10_empty_treated_as_absent_witness :
    envAbsent
      (fun u => if u == ("NODEBB_DB_PASSWORD") then some ("") else some ("x"))
      ("NODEBB_DB_PASSWORD") = true ∧
    validate_environment
      (fun u => if u == ("NODEBB_DB_PASSWORD") then some ("") else some ("x"))
      = validate_environment (fun u => if u = ("NODEBB_DB_PASSWORD") then none
          else if u == ("NODEBB_DB_PASSWORD") then some ("") else some ("x")) ∧
    (∃ w, validate_environment
        (fun u => if u == ("NODEBB_DB_PASSWORD") then some ("") else some ("x"))
        = some w ∧
      entrypoint_resolve
        (fun u => if u == ("NODEBB_DB_PASSWORD") then some ("") else some ("x"))
        ⟨true, true, true⟩ ⟨true, true, true⟩ ⟨true, true, true⟩ =
        ([], some (.missingRequiredSetting w)) ∧
      envAbsent
        (fun u => if u == ("NODEBB_DB_PASSWORD") then some ("") else some ("x"))
        w = true ∧
      (∃ pre post, required_vars = pre ++ w :: post ∧
        ∀ u ∈ pre, envAbsent
          (fun u => if u == ("NODEBB_DB_PASSWORD") then some ("") else some ("x"))
          u = false)) ∧
    ((∃ pre post, required_vars = pre ++ ("NODEBB_DB_PASSWORD") :: post ∧
        ∀ u ∈ pre, envAbsent
          (fun u => if u == ("NODEBB_DB_PASSWORD") then some ("") else some ("x"))
          u = false) →
      validate_environment
        (fun u => if u == ("NODEBB_DB_PASSWORD") then some ("") else some ("x"))
        = some ("NODEBB_DB_PASSWORD")) :=
  c10_empty_treated_as_absent
    (fun u => if u == ("NODEBB_DB_PASSWORD") then some ("") else some ("x"))
    ("NODEBB_DB_PASSWORD")
    ⟨true, true, true⟩ ⟨true, true, true⟩ ⟨true, true, true⟩
    (by decide) (by decide)

end CPForum

namespace CPForum

/-! ### Asset patcher (docker/production-entrypoint.sh, `fix_jquery_assets`) -/

/-- Whether `pat` is a prefix of the character list. -/
def listStartsWith : List Char → List Char → Bool
  | [], _ => true
  | _ :: _, [] => false
  | p :: ps, c :: cs => p == c && listStartsWith ps cs

/-- Whether `pat` occurs as a contiguous substring of the character list. -/
def listHasSub (pat : List Char) : List Char → Bool
  | [] => listStartsWith pat []
  | c :: cs => listStartsWith pat (c :: cs) || listHasSub pat cs

/-- Substring test on strings, used to model fixed-pattern `grep` matching
on a single line. -/
def strHasSub (pat s : String) : Bool :=
  listHasSub pat.toList s.toList

/-- One line matches the strip pattern
`grep -v "jQuery\|window\.jQuery\|\$\.fn\."` of the patcher exactly when it
contains one of the three literal fragments. -/
def grepJqueryMatch (l : String) : Bool :=
  strHasSub ("jQuery") l || strHasSub ("window.jQuery") l ||
    strHasSub ("$.fn.") l

/-- The fixed lines the patcher emits between the downloaded payload and the
cleaned previous content. -/
def jqueryHeaderTail (scriptsComment : String) : List String :=
  [";", "",
   "/* Ensure jQuery is globally available */",
   "if (typeof window !== \x27undefined\x27) \x7b",
   "    window.jQuery = window.$ = jQuery;",
   "\x7d", "",
   scriptsComment]

/-- Everything the patcher writes before the cleaned previous content: the
marker comment, the downloaded jQuery payload, then the fixed tail. -/
def jqueryHeader (firstComment scriptsComment : String)
    (jq : List String) : List String :=
  firstComment :: (jq ++ jqueryHeaderTail scriptsComment)

/-- `grep -v pattern backup > clean || cp backup clean`: the lines not
matching the strip pattern, except that when no line survives `grep` exits
nonzero and the whole backup is copied instead. -/
def cleanLines (content : List String) : List String :=
  let kept := content.filter (fun l => !grepJqueryMatch l)
  if kept.isEmpty then content else kept

/-- One run of the per-bundle patch body: back up (not modeled: the backup
file is write-only), strip jQuery-marked lines, rewrite the bundle as
header plus payload plus cleaned content. -/
def patchBundle (firstComment scriptsComment : String)
    (jq content : List String) : List String :=
  jqueryHeader firstComment scriptsComment jq ++ cleanLines content

def adminFirstComment : String := "/* jQuery 3.7.1 - MUST BE FIRST */"

def adminScriptsComment : String := "/* NodeBB Admin Scripts */"

/-- The admin-bundle instance of the patch body. -/
def patchAdminBundle (jq content : List String) : List String :=
  patchBundle adminFirstComment adminScriptsComment jq content

def clientFirstComment : String :=
  "/* jQuery 3.7.1 for NodeBB Client - MUST BE FIRST */"

def clientScriptsComment : String := "/* NodeBB Client Scripts */"

/-- The client-bundle instance of the patch body. -/
def patchClientBundle (jq content : List String) : List String :=
  patchBundle clientFirstComment clientScriptsComment jq content

/-- The wrapper lines of an injected header that do NOT match the strip
pattern and therefore survive the next invocation's `grep -v`. -/
def residualLines (scriptsComment : String) : List String :=
  [";", "", "if (typeof window !== \x27undefined\x27) \x7b", "\x7d", "",
   scriptsComment]

/-- The filesystem facts `fix_jquery_assets` consults: whether
`build/public` exists, whether the `curl` download of the payload succeeds
and its byte size, and the content of the first existing admin and client
bundle (`none` when no candidate file exists). -/
structure AssetWorld where
  buildPublicOk : Bool
  curlOk : Bool
  jqBytes : Nat
  adminBundle : Option (List String)
  clientBundle : Option (List String)
deriving DecidableEq, Repr

/-- `fix_jquery_assets`: returns the function's exit status together with
the resulting world. Status 1 when `build/public` is missing, the download
fails or is shorter than 50000 bytes, or no admin bundle exists; in the
last case the client bundle has still been patched. The standalone
`jquery.min.js` fallback copy is not modeled. -/
def fix_jquery_assets (jq : List String) (w : AssetWorld) :
    Nat × AssetWorld :=
  if !w.buildPublicOk then (1, w)
  else if !w.curlOk then (1, w)
  else if w.jqBytes < 50000 then (1, w)
  else
    let w' : AssetWorld :=
      { w with adminBundle := w.adminBundle.map (patchAdminBundle jq),
               clientBundle := w.clientBundle.map (patchClientBundle jq) }
    match w.adminBundle with
    | some _ => (0, w')
    | none => (1, w')

/-- How the launch stops when it does not reach the process start. -/
inductive LaunchAbort
  | assetPatchFailed (code : Nat)
  | preflightFailed (count : Nat) (messages : List String)
deriving DecidableEq, Repr

/-- Sections 6 and 7 of the production entrypoint in sequence: the script
runs under `set -euo pipefail`, so a nonzero status of `fix_jquery_assets`
terminates it with that status before the preflight gate is evaluated. -/
def entrypoint_patch_then_preflight (jq : List String) (w : AssetWorld)
    (st : PreflightState) : Except LaunchAbort AssetWorld :=
  let r := fix_jquery_assets jq w
  if r.1 = 0 then
    match pre_start_validation st with
    | .ok _ => .ok r.2
    | .error e => .error (.preflightFailed e.1 e.2)
  else .error (.assetPatchFailed r.1)

/-- A two-line stand-in for the downloaded jQuery payload: like the real
file, every line contains the fragment `jQuery`. -/
def jqPayloadC : List String := ["jQuery v3.7.1", "x=jQuery"]

end CPForum

namespace CPForum

theorem filter_idem {α : Type} (p : α → Bool) (l : List α) :
    (l.filter p).filter p = l.filter p := by
  induction l with
  | nil => rfl
  | cons a t ih =>
    by_cases h : p a <;> simp [List.filter_cons, h, ih]

theorem cleanLines_of_filter_eq (x y : List String)
    (hf : x.filter (fun l => !grepJqueryMatch l) = y)
    (hy : y.isEmpty = false) : cleanLines x = y := by
  unfold cleanLines
  simp [hf, hy]

theorem cleanLines_filter (b : List String) :
    (cleanLines b).filter (fun l => !grepJqueryMatch l) =
      b.filter (fun l => !grepJqueryMatch l) := by
  unfold cleanLines
  by_cases h : (b.filter (fun l => !grepJqueryMatch l)).isEmpty
  · simp [h]
  · simp [h, filter_idem]

theorem filter_adminHeader (jq : List String)
    (hjq : ∀ l ∈ jq, strHasSub ("jQuery") l = true) :
    (jqueryHeader adminFirstComment adminScriptsComment jq).filter
        (fun l => !grepJqueryMatch l) =
      residualLines adminScriptsComment := by
  unfold jqueryHeader
  have hfc : grepJqueryMatch adminFirstComment = true := by decide
  have hjq' : jq.filter (fun l => !grepJqueryMatch l) = [] := by
    rw [List.filter_eq_nil_iff]
    intro a ha
    simp [grepJqueryMatch, hjq a ha]
  rw [List.filter_cons, List.filter_append, hjq']
  simp only [hfc]
  decide

end CPForum

namespace CPForum

/-- C3 counterexample: on a concrete one-line bundle, invoking the patch
step twice does not give the same bytes as invoking it once — the claim
that re-invocation on an already-patched bundle is a detected no-op is
false. -/
theorem c3_patch_not_idempotent_counterexample :
    patchAdminBundle jqPayloadC (patchAdminBundle jqPayloadC ["var a=1"]) ≠
      patchAdminBundle jqPayloadC ["var a=1"] := by
  decide

/-- C3 (amended): the patcher performs no already-patched detection; a
second invocation strips every line containing a jQuery marker — including
the previously injected payload, which is therefore never duplicated — and
prepends the header again, leaving the non-matching wrapper lines of the
first injection behind; consequently the result of invoking twice is the
header, then that residue, then the cleaned original content, and it never
equals the result of invoking once. -/
theorem c3_patch_twice_characterization (jq b : List String)
    (hjq : ∀ l ∈ jq, strHasSub ("jQuery") l = true) :
    patchAdminBundle jq (patchAdminBundle jq b) =
      jqueryHeader adminFirstComment adminScriptsComment jq ++
        (residualLines adminScriptsComment ++
          b.filter (fun l => !grepJqueryMatch l)) ∧
    patchAdminBundle jq (patchAdminBundle jq b) ≠
      patchAdminBundle jq b := by
  have hchar : patchAdminBundle jq (patchAdminBundle jq b) =
      jqueryHeader adminFirstComment adminScriptsComment jq ++
        (residualLines adminScriptsComment ++
          b.filter (fun l => !grepJqueryMatch l)) := by
    show patchBundle adminFirstComment adminScriptsComment jq
        (patchBundle adminFirstComment adminScriptsComment jq b) = _
    unfold patchBundle
    congr 1
    have hkept : (jqueryHeader adminFirstComment adminScriptsComment jq ++
        cleanLines b).filter (fun l => !grepJqueryMatch l) =
        residualLines adminScriptsComment ++
          b.filter (fun l => !grepJqueryMatch l) := by
      rw [List.filter_append, filter_adminHeader jq hjq, cleanLines_filter]
    exact cleanLines_of_filter_eq _ _ hkept (by simp [residualLines])
  refine ⟨hchar, ?_⟩
  intro heq
  rw [hchar] at heq
  show False
  have hclean : residualLines adminScriptsComment ++
      b.filter (fun l => !grepJqueryMatch l) = cleanLines b :=
    List.append_cancel_left
      (heq.trans (by unfold patchAdminBundle patchBundle; rfl))
  simp only [cleanLines] at hclean
  by_cases h : (b.filter (fun l => !grepJqueryMatch l)).isEmpty
  · rw [if_pos h] at hclean
    have hb : b = residualLines adminScriptsComment := by
      have hnil : b.filter (fun l => !grepJqueryMatch l) = [] :=
        List.isEmpty_iff.mp h
      rw [hnil, List.append_nil] at hclean
      exact hclean.symm
    rw [hb] at h
    revert h
    decide
  · rw [if_neg h] at hclean
    have := congrArg List.length hclean
    simp [residualLines] at this
    omega

end CPForum

namespace CPForum

/-- C3 witness: the two-invocation characterization evaluated on the
concrete payload and a one-line bundle. -/
theorem c3_patch_twice_characterization_witness :
    patchAdminBundle jqPayloadC (patchAdminBundle jqPayloadC ["var a=1"]) =
      jqueryHeader adminFirstComment adminScriptsComment jqPayloadC ++
        (residualLines adminScriptsComment ++
          (["var a=1"] : List String).filter (fun l => !grepJqueryMatch l)) ∧
    patchAdminBundle jqPayloadC (patchAdminBundle jqPayloadC ["var a=1"]) ≠
      patchAdminBundle jqPayloadC ["var a=1"] :=
  c3_patch_twice_characterization jqPayloadC ["var a=1"] (by decide)

/-- C2 counterexample: with the download failing and a previously patched
admin bundle already on disk (so this is not a first launch without a
viable bundle), the entrypoint does not warn-and-continue: it stops with
the patcher's exit status 1 and the preflight gate — which would pass — is
never evaluated. -/
theorem c2_patch_failure_aborts_counterexample :
    entrypoint_patch_then_preflight jqPayloadC
      { buildPublicOk := true, curlOk := false, jqBytes := 0,
        adminBundle := some (patchAdminBundle jqPayloadC ["var a=1"]),
        clientBundle := none } preflightAllGood =
      .error (.assetPatchFailed 1) ∧
    ({ buildPublicOk := true, curlOk := false, jqBytes := 0,
       adminBundle := some (patchAdminBundle jqPayloadC ["var a=1"]),
       clientBundle := none } : AssetWorld).adminBundle.isSome = true ∧
    pre_start_validation preflightAllGood = .ok () := by
  refine ⟨rfl, rfl, rfl⟩

/-- C2 (amended): under `set -euo pipefail` every failure of the asset
patcher (missing asset directory, failed or short download, no admin
bundle) is fatal to the launch: the entrypoint terminates with the
patcher's nonzero status before the preflight gate runs, regardless of any
previously patched bundle; only a zero status continues to the preflight
gate on the patched world. -/
theorem c2_patch_failure_fatal (jq : List String) (w : AssetWorld)
    (st : PreflightState) :
    ((fix_jquery_assets jq w).1 ≠ 0 →
      entrypoint_patch_then_preflight jq w st =
        .error (.assetPatchFailed (fix_jquery_assets jq w).1)) ∧
    ((fix_jquery_assets jq w).1 = 0 →
      entrypoint_patch_then_preflight jq w st =
        match pre_start_validation st with
        | .ok _ => .ok (fix_jquery_assets jq w).2
        | .error e => .error (.preflightFailed e.1 e.2)) := by
  constructor
  · intro h
    unfold entrypoint_patch_then_preflight
    simp [h]
  · intro h
    unfold entrypoint_patch_then_preflight
    simp [h]

/-- C2 witness: a world whose `build/public` directory is missing makes the
patcher fail with status 1 and the launch abort before the gate. -/
theorem c2_patch_failure_fatal_witness :
    (fix_jquery_assets []
      { buildPublicOk := false, curlOk := true, jqBytes := 60000,
        adminBundle := none, clientBundle := none }).1 ≠ 0 ∧
    entrypoint_patch_then_preflight []
      { buildPublicOk := false, curlOk := true, jqBytes := 60000,
        adminBundle := none, clientBundle := none } preflightAllGood =
      .error (.assetPatchFailed
        (fix_jquery_assets []
          { buildPublicOk := false, curlOk := true, jqBytes := 60000,
            adminBundle := none, clientBundle := none }).1) :=
  ⟨by decide,
   (c2_patch_failure_fatal []
     { buildPublicOk := false, curlOk := true, jqBytes := 60000,
       adminBundle := none, clientBundle := none } preflightAllGood).1
     (by decide)⟩

end CPForum

namespace CPForum

/-! ### Configuration generation (docker/production-entrypoint.sh,
`create_configuration`) -/

/-- The `${VAR:-default}` expansion: the default is used when the variable
is unset or empty. -/
def envDefault (env : Env) (v defv : String) : String :=
  match env v with
  | some s => if s = "" then defv else s
  | none => defv

/-- The fields `create_configuration` writes into `config.json` (the file
is regenerated from scratch by `cat > "$config_file"` on every launch and
then copied to the working directory). `randHex` is the output of this
launch's `openssl rand -hex 32` command substitution, which is evaluated
whenever `NODEBB_SECRET` is unset or empty. -/
structure NodebbConfig where
  url : String
  secret : String
  dbHost : String
  dbPort : String
  dbName : String
  dbUser : String
  dbPassword : String
  authSource : String
  port : String
deriving DecidableEq, Repr

/-- `create_configuration` of the production entrypoint. -/
def create_configuration (env : Env) (randHex : String) : NodebbConfig :=
  { url := envDefault env ("SITE_URL") ("https://forum.codeproject.com"),
    secret := envDefault env ("NODEBB_SECRET") randHex,
    dbHost := (env ("NODEBB_DB_HOST")).getD (""),
    dbPort := envDefault env ("NODEBB_DB_PORT") ("27017"),
    dbName := (env ("NODEBB_DB_NAME")).getD (""),
    dbUser := (env ("NODEBB_DB_USER")).getD (""),
    dbPassword := (env ("NODEBB_DB_PASSWORD")).getD (""),
    authSource := envDefault env ("NODEBB_DB_AUTH_SOURCE") ("admin"),
    port := envDefault env ("PORT") ("4567") }

/-- A concrete environment with the database settings configured and no
`NODEBB_SECRET`. -/
def envNoSecret : Env := fun v =>
  if v == ("NODEBB_DB_HOST") then some ("db.internal")
  else if v == ("NODEBB_DB_USER") then some ("forum")
  else if v == ("NODEBB_DB_PASSWORD") then some ("pw")
  else if v == ("NODEBB_DB_NAME") then some ("nodebb")
  else none

end CPForum

namespace CPForum

/-- C9 counterexample: with no secret supplied, two launches whose
`openssl rand -hex 32` outputs differ produce configurations whose secret
fields differ — the secret is regenerated, not created once and left
unchanged. -/
theorem c9_secret_regenerated_counterexample :
    (create_configuration envNoSecret ("aa11")).secret = "aa11" ∧
    (create_configuration envNoSecret ("bb22")).secret = "bb22" ∧
    create_configuration envNoSecret ("aa11") ≠
      create_configuration envNoSecret ("bb22") := by
  refine ⟨rfl, rfl, ?_⟩
  decide

/-- C9 (amended): when no secret is supplied (unset or empty), every launch
rewrites the configuration with the secret taken from that launch's fresh
`openssl rand -hex 32` output, so the secret coincides across two launches
only when the two random outputs coincide; when `NODEBB_SECRET` is
supplied non-empty, the generated configuration is identical across
launches regardless of the random output. -/
theorem c9_secret_per_launch (env : Env) (r1 r2 : String) :
    ((envAbsent env ("NODEBB_SECRET")) = true →
      (create_configuration env r1).secret = r1 ∧
      ((create_configuration env r1).secret =
        (create_configuration env r2).secret ↔ r1 = r2)) ∧
    (∀ s, env ("NODEBB_SECRET") = some s → s ≠ "" →
      create_configuration env r1 = create_configuration env r2) := by
  constructor
  · intro h
    have hs : envDefault env ("NODEBB_SECRET") r1 = r1 ∧
        envDefault env ("NODEBB_SECRET") r2 = r2 := by
      unfold envAbsent at h
      unfold envDefault
      cases he : env ("NODEBB_SECRET") with
      | none => exact ⟨rfl, rfl⟩
      | some s =>
        rw [he] at h
        simp only [Option.getD_some, beq_iff_eq] at h
        simp [h]
    refine ⟨hs.1, ?_⟩
    show envDefault env ("NODEBB_SECRET") r1 =
        envDefault env ("NODEBB_SECRET") r2 ↔ r1 = r2
    rw [hs.1, hs.2]
  · intro s hs hne
    unfold create_configuration
    simp [envDefault, hs, hne]

/-- C9 witness: with the concrete secretless environment the two clauses of
the per-launch characterization hold at random outputs `aa11`, `bb22`. -/
theorem c9_secret_per_launch_witness :
    (create_configuration envNoSecret ("aa11")).secret = "aa11" ∧
    ((create_configuration envNoSecret ("aa11")).secret =
      (create_configuration envNoSecret ("bb22")).secret ↔
        ("aa11" : String) = "bb22") :=
  (c9_secret_per_launch envNoSecret ("aa11") ("bb22")).1 (by decide)

end CPForum

namespace CPForum

/-! ### Restart strategy (src/meta/index.js, `restart` / `fallbackRestart`) -/

/-- Callbacks that can run inside the `restart()` function, in the order
the Node event loop delivers them: the child process `error` event (spawn
failure), the child `exit` event with its code, and the firing of the
5000 ms `setTimeout` — which is never cancelled by any path of
`restart()`, so it fires in every execution in which the Node process is
still alive 5 seconds after the spawn. -/
inductive RestartEvent
  | errorEvent
  | exitEvent (code : Nat)
  | timerFired
deriving DecidableEq, Repr

/-- The mutable state of one `restart()` call: the `hasError` flag and how
many times `fallbackRestart()` (which schedules `process.exit(0)` after
1 s) has been invoked. -/
structure RestartState where
  hasError : Bool
  fallbackCalls : Nat
deriving DecidableEq, Repr

/-- The three handlers registered by `restart()`: `error` sets `hasError`
and falls back; `exit` with code 0 only logs success; `exit` with a
nonzero code falls back unless `hasError` is already set; the timeout
callback falls back (killing the process) unless `hasError` is set. -/
def handleRestartEvent (s : RestartState) : RestartEvent → RestartState
  | .errorEvent => { hasError := true, fallbackCalls := s.fallbackCalls + 1 }
  | .exitEvent c =>
    if c = 0 then s
    else if s.hasError then s
    else { s with fallbackCalls := s.fallbackCalls + 1 }
  | .timerFired =>
    if s.hasError then s
    else { s with fallbackCalls := s.fallbackCalls + 1 }

/-- One execution of `restart()`, processing its delivered callbacks in
order from the initial state. -/
def runRestart (events : List RestartEvent) : RestartState :=
  events.foldl handleRestartEvent { hasError := false, fallbackCalls := 0 }

end CPForum

namespace CPForum

/-- C8: a remote redeploy that succeeds within the timeout — the `aws`
process exits with code 0 and then the uncancelled 5-second timer fires —
still invokes the local-exit fallback: `fallbackCalls` is 1, not the 0 the
claim requires for a successful remote call. -/
theorem c8_remote_success_still_falls_back :
    runRestart [.exitEvent 0, .timerFired] =
      { hasError := false, fallbackCalls := 1 } ∧
    runRestart [.errorEvent, .timerFired] =
      { hasError := true, fallbackCalls := 1 } ∧
    runRestart [.exitEvent 3, .timerFired] =
      { hasError := false, fallbackCalls := 2 } := by
  refine ⟨rfl, rfl, rfl⟩

end CPForum
